import Mathlib

/-!
Verification of the serper_mod repository: a Go client for the Serper.dev
search API.  This file is a shallow embedding of the request-preparation and
response-handling pipeline (`serper/types.go` and the client file with
`prepareRequest`, the five vertical operations, `New` and `doRequest`),
together with theorems settling the specification claims.

Modelling conventions:
- Go `int` fields are embedded as `Int` (no arithmetic in the pipeline can
  overflow 64 bits, so plain integers are faithful).
- A Go function returning `error` is embedded as returning `Option String`
  (`none` = nil error) or `Except String α`.
- Pointer mutation: `prepareRequest` receives `*SearchRequest` in Go.  The
  embedding returns, alongside its result, the contents of the caller's cell
  after the call, so that absence of mutation is a provable statement rather
  than a modelling artefact.
- Effects: each client operation additionally returns the list of transport
  dispatches it performed (the calls to `Doer.Do`), in order.
- Raw response bodies are byte strings, embedded as `List Nat`.
- External collaborators that are not part of this repository
  (`json.Unmarshal`, `secval.ValidateJSON` from chassis-go, the Go stdlib
  `url.ParseRequestURI`, the default `http.Client`) are represented either as
  abstract function parameters quantified in the theorems, or as definitions
  marked `Modelled from the spec:`.
-/

namespace Serper

/-- SearchRequest from `serper/types.go`: the caller-supplied search
parameters `Q`, `Num`, `GL`, `HL`, `Location`, `Page`.
(`GL` and `HL` are reserved notation in Mathlib, so those two fields are
embedded with lowercase names `gl` and `hl`.) -/
structure SearchRequest where
  Q : String
  Num : Int
  gl : String
  hl : String
  Location : String
  Page : Int
deriving DecidableEq, Repr

/-- SetDefaults from `serper/types.go`: fills `Num`, `GL`, `HL`, `Page` with
`10`, `"us"`, `"en"`, `1` when they hold the Go zero value.  Go mutates the
receiver in place; the embedding returns the updated value. -/
def SetDefaults (r : SearchRequest) : SearchRequest :=
  let r1 := if r.Num = 0 then { r with Num := 10 } else r
  let r2 := if r1.gl = "" then { r1 with gl := "us" } else r1
  let r3 := if r2.hl = "" then { r2 with hl := "en" } else r2
  if r3.Page = 0 then { r3 with Page := 1 } else r3

/-- Validate from `serper/types.go`: `some msg` embeds a non-nil `error` with
message `msg`; `none` embeds a nil error.  The source checks, in order:
`r.Q == ""`, then `r.Num < 0 || r.Num > 100`, then `r.Page < 0`. -/
def Validate (r : SearchRequest) : Option String :=
  if r.Q = "" then some "query (q) is required"
  else if r.Num < 0 ∨ r.Num > 100 then some "num must be between 1 and 100"
  else if r.Page < 0 then some "page must be non-negative"
  else none

/-- prepareRequest from the client file: `cp := *req` (a value copy),
`cp.SetDefaults()` (mutates only the copy), `cp.Validate()`.  The first
component is the Go return value (`Except.ok` carries the prepared copy);
the second component is the contents of the caller's `*req` cell after the
call — the Go body never writes through `req`, so it is `req` itself. -/
def prepareRequest (req : SearchRequest) : Except String SearchRequest × SearchRequest :=
  let cp := SetDefaults req
  match Validate cp with
  | some e => (Except.error e, req)
  | none => (Except.ok cp, req)

/-- Constants from the client file. -/
def defaultBaseURL : String := "https://google.serper.dev"

/-- Cap (bytes) on how much of a response body is read (`io.LimitReader`). -/
def maxResponseBytes : Nat := 10 * 1024 * 1024

/-- Cap (bytes) on how much of an error body is kept in an error message. -/
def maxErrorBodyBytes : Nat := 1024

/-- A dispatched HTT-P request as it reaches the injected transport: method,
full URL, headers set by `doRequest`, and the prepared request serving as the
JSON body (`json.Marshal` is external; the body is kept structured). -/
structure Dispatch where
  method : String
  url : String
  contentType : String
  apiKey : String
  body : SearchRequest
deriving DecidableEq, Repr

/-- What the transport returns: either a Go-level error from `Do`
(connection failure, cancellation, ...) or a response with a status code and
a raw body byte string. -/
inductive TransportResult where
  | failure (msg : String)
  | response (statusCode : Int) (body : List Nat)

/-- The `Doer` interface: anything that can execute a dispatched request. -/
def Doer := Dispatch → TransportResult

/-- Client from the client file: API key, base URL, transport. -/
structure Client where
  apiKey : String
  baseURL : String
  doer : Doer

/-- Option (the functional option type `func(*Client)`); named
`ClientOption` because `Option` is taken by Lean. -/
def ClientOption := Client → Client

/-- WithBaseURL from the client file. -/
def WithBaseURL (url : String) : ClientOption :=
  fun c => { c with baseURL := url }

/-- WithDoer from the client file. -/
def WithDoer (d : Doer) : ClientOption :=
  fun c => { c with doer := d }

/-- Modelled from the spec: the default transport
(`&http.Client{Timeout: defaultTimeout}`, Go standard library, outside this
repository).  Its network behavior is environment-dependent and no claim
depends on it, so it is represented by a fixed transport value. -/
def defaultDoer : Doer :=
  fun _ => TransportResult.failure "http.Client: no network in the model"

/-- Modelled from the spec: `url.ParseRequestURI` (Go standard library,
outside this repository) succeeding — the spec's words: the base URL is
"validated as a well-formed absolute URL".  Well-formedness is modelled as:
the string has a scheme (non-empty, starting with a letter, continuing with
letters, digits, `+`, `-` or `.`) followed by a colon. -/
def isAbsoluteURL (s : String) : Bool :=
  match s.data with
  | [] => false
  | c :: cs =>
    c.isAlpha &&
    (c :: cs).dropWhile (fun ch => ch.isAlphanum || ch = '+' || ch = '-' || ch = '.') ≠ [] &&
    ((c :: cs).dropWhile (fun ch => ch.isAlphanum || ch = '+' || ch = '-' || ch = '.')).head? = some ':'

/-- New from the client file: rejects an empty API key, builds the client
with `defaultBaseURL` and the default transport, applies the options in
order, then validates the final base URL.  (Go formats the invalid-URL
message with `%q` and wraps the parse error; the embedding keeps the stable
prefix and the offending URL.) -/
def New (apiKey : String) (opts : List ClientOption) : Except String Client :=
  if apiKey = "" then Except.error "serper: API key must not be empty"
  else
    let c : Client := { apiKey := apiKey, baseURL := defaultBaseURL, doer := defaultDoer }
    let c := opts.foldl (fun c o => o c) c
    if isAbsoluteURL c.baseURL then Except.ok c
    else Except.error ("serper: invalid base URL " ++ c.baseURL)

/-- Context for a call, reduced to the only value the client reads from it:
the API-key override installed by `WithAPIKey` (`none` when absent). -/
def Context := Option String

/-- WithAPIKey from the client file: an empty key leaves the context
unchanged; otherwise the override is installed (the innermost installation
wins, exactly as with nested `context.WithValue`). -/
def WithAPIKey (ctx : Context) (key : String) : Context :=
  if key = "" then ctx else some key

/-- getAPIKey from the client file: a non-empty override in the context wins
over the client's configured key. -/
def getAPIKey (c : Client) (ctx : Context) : String :=
  match ctx with
  | some key => if key ≠ "" then key else c.apiKey
  | none => c.apiKey

/-- The closed error taxonomy assigned by `doRequest`'s status-code switch.
Constructor names follow the chassis-go constructors called in the source;
the spec names `dependency` "upstream-unavailable". -/
inductive ErrorKind where
  | validation
  | unauthorized
  | notFound
  | rateLimited
  | dependency
  | internal
deriving DecidableEq, Repr

/-- A classified upstream HTT-P error: its kind, the status code, and the
detail message bytes (`serper: HTTP <code>: <truncated body>`). -/
structure HTTPError where
  kind : ErrorKind
  statusCode : Int
  message : List Nat
deriving DecidableEq, Repr

/-- Errors `doRequest` can return, one constructor per source return path
(the `json.Marshal` and `http.NewRequestWithContext` paths are dead for this
body type and a parsed base URL and are omitted). -/
inductive RequestError where
  | transport (msg : String)
  | http (e : HTTPError)
  | secviol (msg : String)
  | unmarshal (msg : String)
deriving DecidableEq, Repr

/-- Errors a vertical operation can return: the local validation failure
from `prepareRequest`, or a `doRequest` failure. -/
inductive SerperError where
  | validation (msg : String)
  | request (e : RequestError)
deriving DecidableEq, Repr

/-- UTF-8 bytes of an ASCII string (all strings involved are ASCII). -/
def strBytes (s : String) : List Nat :=
  s.data.map Char.toNat

/-- The marker appended after a truncated error body. -/
def truncationMarker : List Nat :=
  strBytes "...(truncated)"

/-- The error-body truncation step of `doRequest`:
`if len(msg) > maxErrorBodyBytes` then keep the first `maxErrorBodyBytes`
bytes and append the marker, else keep the body whole. -/
def truncateErrorBody (body : List Nat) : List Nat :=
  if maxErrorBodyBytes < body.length then body.take maxErrorBodyBytes ++ truncationMarker
  else body

/-- The status-code switch of `doRequest` (entered only for codes ≥ 400):
400, 401, 404, 429 map to their kinds, 502 and 503 to `dependency`, and the
`default` arm maps everything else to `internal`. -/
def statusKind (statusCode : Int) : ErrorKind :=
  if statusCode = 400 then ErrorKind.validation
  else if statusCode = 401 then ErrorKind.unauthorized
  else if statusCode = 404 then ErrorKind.notFound
  else if statusCode = 429 then ErrorKind.rateLimited
  else if statusCode = 502 ∨ statusCode = 503 then ErrorKind.dependency
  else ErrorKind.internal

/-- The classified error built by `doRequest` for a failing status: the kind
from the switch, and the detail `serper: HTTP <code>: <truncated body>`. -/
def classifyHTTPError (statusCode : Int) (body : List Nat) : HTTPError :=
  { kind := statusKind statusCode
    statusCode := statusCode
    message := strBytes ("serper: HTTP " ++ toString statusCode ++ ": ") ++ truncateErrorBody body }

/-- The request `doRequest` hands to the transport: POST to
`baseURL + endpoint` with the JSON content type, the API key from
`getAPIKey`, and the prepared request as body. -/
def buildDispatch (c : Client) (ctx : Context) (endpoint : String)
    (reqBody : SearchRequest) : Dispatch :=
  { method := "POST"
    url := c.baseURL ++ endpoint
    contentType := "application/json"
    apiKey := getAPIKey c ctx
    body := reqBody }

/-- doRequest from the client file.  `secheck` stands for
`secval.ValidateJSON` and `decode` for `json.Unmarshal` into the vertical's
response type `α` — both are external to this repository, so they are
abstract parameters (theorems quantify over them).  The result pairs the Go
return value with the list of transport dispatches performed; `Do` is called
exactly once on every path through this function.  The body is capped at
`maxResponseBytes` (`io.LimitReader`); a failing status (≥ 400) is
classified by the status switch with the truncated body in the message. -/
def doRequest {α : Type} (c : Client) (ctx : Context) (endpoint : String)
    (secheck : List Nat → Option String) (decode : List Nat → Except String α)
    (reqBody : SearchRequest) : Except RequestError α × List Dispatch :=
  let d := buildDispatch c ctx endpoint reqBody
  match c.doer d with
  | TransportResult.failure m =>
    (Except.error (RequestError.transport ("serper: do request: " ++ m)), [d])
  | TransportResult.response code rawBody =>
    let body := rawBody.take maxResponseBytes
    if 400 ≤ code then
      (Except.error (RequestError.http (classifyHTTPError code body)), [d])
    else
      match secheck body with
      | some m =>
        (Except.error (RequestError.secviol ("serper: unsafe response body: " ++ m)), [d])
      | none =>
        match decode body with
        | Except.error m =>
          (Except.error (RequestError.unmarshal ("serper: unmarshal response: " ++ m)), [d])
        | Except.ok v => (Except.ok v, [d])

/-- Search from the client file: prepare (copy, default, validate), return
the validation error with no dispatch on failure, otherwise dispatch the
prepared copy to `/search`.  The result triple is (Go return value, contents
of the caller's `*req` cell after the call, dispatch trace). -/
def Client.Search {α : Type} (c : Client) (ctx : Context)
    (secheck : List Nat → Option String) (decode : List Nat → Except String α)
    (req : SearchRequest) : Except SerperError α × SearchRequest × List Dispatch :=
  let p := prepareRequest req
  match p.1 with
  | Except.error e => (Except.error (SerperError.validation e), p.2, [])
  | Except.ok prepared =>
    let r := doRequest c ctx "/search" secheck decode prepared
    (Except.mapError SerperError.request r.1, p.2, r.2)

/-- Images from the client file; identical to `Search` with the `/images`
endpoint (the source duplicates the body across the five verticals). -/
def Client.Images {α : Type} (c : Client) (ctx : Context)
    (secheck : List Nat → Option String) (decode : List Nat → Except String α)
    (req : SearchRequest) : Except SerperError α × SearchRequest × List Dispatch :=
  let p := prepareRequest req
  match p.1 with
  | Except.error e => (Except.error (SerperError.validation e), p.2, [])
  | Except.ok prepared =>
    let r := doRequest c ctx "/images" secheck decode prepared
    (Except.mapError SerperError.request r.1, p.2, r.2)

/-- News from the client file; identical to `Search` with `/news`. -/
def Client.News {α : Type} (c : Client) (ctx : Context)
    (secheck : List Nat → Option String) (decode : List Nat → Except String α)
    (req : SearchRequest) : Except SerperError α × SearchRequest × List Dispatch :=
  let p := prepareRequest req
  match p.1 with
  | Except.error e => (Except.error (SerperError.validation e), p.2, [])
  | Except.ok prepared =>
    let r := doRequest c ctx "/news" secheck decode prepared
    (Except.mapError SerperError.request r.1, p.2, r.2)

/-- Places from the client file; identical to `Search` with `/places`. -/
def Client.Places {α : Type} (c : Client) (ctx : Context)
    (secheck : List Nat → Option String) (decode : List Nat → Except String α)
    (req : SearchRequest) : Except SerperError α × SearchRequest × List Dispatch :=
  let p := prepareRequest req
  match p.1 with
  | Except.error e => (Except.error (SerperError.validation e), p.2, [])
  | Except.ok prepared =>
    let r := doRequest c ctx "/places" secheck decode prepared
    (Except.mapError SerperError.request r.1, p.2, r.2)

/-- Scholar from the client file; identical to `Search` with `/scholar`. -/
def Client.Scholar {α : Type} (c : Client) (ctx : Context)
    (secheck : List Nat → Option String) (decode : List Nat → Except String α)
    (req : SearchRequest) : Except SerperError α × SearchRequest × List Dispatch :=
  let p := prepareRequest req
  match p.1 with
  | Except.error e => (Except.error (SerperError.validation e), p.2, [])
  | Except.ok prepared =>
    let r := doRequest c ctx "/scholar" secheck decode prepared
    (Except.mapError SerperError.request r.1, p.2, r.2)

/-- The shape shared by the five vertical operations, abstracted over the
endpoint; each operation is definitionally an instance of it (proved by
`rfl` below), which lets the per-vertical theorems share one proof. -/
def clientCall {α : Type} (c : Client) (ctx : Context) (endpoint : String)
    (secheck : List Nat → Option String) (decode : List Nat → Except String α)
    (req : SearchRequest) : Except SerperError α × SearchRequest × List Dispatch :=
  let p := prepareRequest req
  match p.1 with
  | Except.error e => (Except.error (SerperError.validation e), p.2, [])
  | Except.ok prepared =>
    let r := doRequest c ctx endpoint secheck decode prepared
    (Except.mapError SerperError.request r.1, p.2, r.2)

/-- A transport test double for concrete witnesses: succeeds with an empty
body (mirrors `mockDoer` with status 200 in the repository's tests). -/
def mockDoer : Doer :=
  fun _ => TransportResult.response 200 []

/-- A security check that accepts every body (abstracting
`secval.ValidateJSON` on benign input), for concrete witnesses. -/
def noCheck : List Nat → Option String :=
  fun _ => none

/-- A decoder that always succeeds with `()`, for concrete witnesses. -/
def okDecode : List Nat → Except String Unit :=
  fun _ => Except.ok ()

/-- A concrete client for witnesses (mirrors the repository's tests, which
build a client over `mockDoer` and base URL `https://api.test`). -/
def testClient : Client :=
  { apiKey := "key", baseURL := "https://api.test", doer := mockDoer }

/-- The four default-filling steps act on independent fields, so
`SetDefaults` is the simultaneous record update. -/
theorem setDefaults_eq (r : SearchRequest) :
    SetDefaults r = { r with
      Num := if r.Num = 0 then 10 else r.Num
      gl := if r.gl = "" then "us" else r.gl
      hl := if r.hl = "" then "en" else r.hl
      Page := if r.Page = 0 then 1 else r.Page } := by
  unfold SetDefaults
  by_cases h1 : r.Num = 0 <;> by_cases h2 : r.gl = "" <;>
    by_cases h3 : r.hl = "" <;> by_cases h4 : r.Page = 0 <;>
    simp [h1, h2, h3, h4]

theorem setDefaults_Q (r : SearchRequest) : (SetDefaults r).Q = r.Q := by
  rw [setDefaults_eq]

theorem setDefaults_Location (r : SearchRequest) :
    (SetDefaults r).Location = r.Location := by
  rw [setDefaults_eq]

/-- prepareRequest never writes through the caller's pointer. -/
theorem prepareRequest_snd (req : SearchRequest) :
    (prepareRequest req).2 = req := by
  unfold prepareRequest
  cases h : Validate (SetDefaults req) <;> simp [h]

theorem prepareRequest_fst_error {req : SearchRequest} {e : String}
    (h : Validate (SetDefaults req) = some e) :
    (prepareRequest req).1 = Except.error e := by
  unfold prepareRequest
  simp [h]

theorem prepareRequest_fst_ok {req : SearchRequest}
    (h : Validate (SetDefaults req) = none) :
    (prepareRequest req).1 = Except.ok (SetDefaults req) := by
  unfold prepareRequest
  simp [h]

/-- Each vertical operation is the shared call shape at its endpoint. -/
theorem search_eq_clientCall {α : Type} (c : Client) (ctx : Context)
    (secheck : List Nat → Option String) (decode : List Nat → Except String α)
    (req : SearchRequest) :
    Client.Search c ctx secheck decode req = clientCall c ctx "/search" secheck decode req := rfl

theorem images_eq_clientCall {α : Type} (c : Client) (ctx : Context)
    (secheck : List Nat → Option String) (decode : List Nat → Except String α)
    (req : SearchRequest) :
    Client.Images c ctx secheck decode req = clientCall c ctx "/images" secheck decode req := rfl

theorem news_eq_clientCall {α : Type} (c : Client) (ctx : Context)
    (secheck : List Nat → Option String) (decode : List Nat → Except String α)
    (req : SearchRequest) :
    Client.News c ctx secheck decode req = clientCall c ctx "/news" secheck decode req := rfl

theorem places_eq_clientCall {α : Type} (c : Client) (ctx : Context)
    (secheck : List Nat → Option String) (decode : List Nat → Except String α)
    (req : SearchRequest) :
    Client.Places c ctx secheck decode req = clientCall c ctx "/places" secheck decode req := rfl

theorem scholar_eq_clientCall {α : Type} (c : Client) (ctx : Context)
    (secheck : List Nat → Option String) (decode : List Nat → Except String α)
    (req : SearchRequest) :
    Client.Scholar c ctx secheck decode req = clientCall c ctx "/scholar" secheck decode req := rfl

/-- Every path through `doRequest` calls the transport exactly once, on the
built dispatch. -/
theorem doRequest_trace {α : Type} (c : Client) (ctx : Context) (endpoint : String)
    (secheck : List Nat → Option String) (decode : List Nat → Except String α)
    (reqBody : SearchRequest) :
    (doRequest c ctx endpoint secheck decode reqBody).2 =
      [buildDispatch c ctx endpoint reqBody] := by
  unfold doRequest
  cases hdo : c.doer (buildDispatch c ctx endpoint reqBody) with
  | failure m => simp [hdo]
  | response code rawBody =>
    simp only [hdo]
    by_cases h : (400 : Int) ≤ code
    · simp [h]
    · simp only [if_neg h]
      cases hs : secheck (rawBody.take maxResponseBytes) with
      | some m => simp [hs]
      | none =>
        simp only [hs]
        cases hd : decode (rawBody.take maxResponseBytes) <;> simp [hd]

/-- The caller's request cell is unchanged by the shared call shape. -/
theorem clientCall_req_unchanged {α : Type} (c : Client) (ctx : Context)
    (endpoint : String) (secheck : List Nat → Option String)
    (decode : List Nat → Except String α) (req : SearchRequest) :
    (clientCall c ctx endpoint secheck decode req).2.1 = req := by
  unfold clientCall
  cases h : (prepareRequest req).1 <;> simp [h, prepareRequest_snd]

/-- On a validation failure the shared call shape returns the validation
error, the untouched caller cell, and an empty dispatch trace. -/
theorem clientCall_invalid {α : Type} (c : Client) (ctx : Context)
    (endpoint : String) (secheck : List Nat → Option String)
    (decode : List Nat → Except String α) {req : SearchRequest} {e : String}
    (h : Validate (SetDefaults req) = some e) :
    clientCall c ctx endpoint secheck decode req =
      (Except.error (SerperError.validation e), req, []) := by
  unfold clientCall
  simp [prepareRequest_fst_error h, prepareRequest_snd]

/-- On a validation success the shared call shape dispatches the prepared
request exactly once. -/
theorem clientCall_valid {α : Type} (c : Client) (ctx : Context)
    (endpoint : String) (secheck : List Nat → Option String)
    (decode : List Nat → Except String α) {req : SearchRequest}
    (h : Validate (SetDefaults req) = none) :
    (clientCall c ctx endpoint secheck decode req).2.2 =
      [buildDispatch c ctx endpoint (SetDefaults req)] := by
  unfold clientCall
  simp [prepareRequest_fst_ok h, doRequest_trace]

/-- After default-filling, validation of a request with a non-empty query
succeeds exactly when the caller-supplied count is not negative and not over
100 and the caller-supplied page is not negative (count 0 and page 0 have
already been replaced by the defaults). -/
theorem validate_setDefaults_none_iff (req : SearchRequest) (hQ : req.Q ≠ "") :
    Validate (SetDefaults req) = none ↔
      ¬(req.Num < 0 ∨ 100 < req.Num ∨ req.Page < 0) := by
  rw [setDefaults_eq]
  unfold Validate
  by_cases h1 : req.Num = 0 <;> by_cases h4 : req.Page = 0 <;>
    simp [hQ, h1, h4]
  all_goals split_ifs <;> simp_all <;> omega

/-- C1: the claim states that `Validate` fails with a message mentioning
"num" whenever `Num` is 0, negative, or above 100, and that the message's
boundary wording matches the enforced range.  The code enforces
`Num < 0 || Num > 100`, so `Num = 0` is accepted — contradicting the
repository's own test `TestSearchRequest_Validate` (case "num zero", which
wants an error), CHANGELOG entry 1.1.0 ("Validate() now rejects Num < 1"),
and the README — while the message still reads "between 1 and 100".  This
theorem evaluates the code at the failing input `Num = 0` (accepted) and at
the in-range and out-of-range neighbours. -/
theorem claim1_validate_num :
    Validate { Q := "test", Num := 0, gl := "", hl := "", Location := "", Page := 1 } = none ∧
    Validate { Q := "test", Num := 1, gl := "", hl := "", Location := "", Page := 1 } = none ∧
    Validate { Q := "test", Num := 100, gl := "", hl := "", Location := "", Page := 1 } = none ∧
    Validate { Q := "test", Num := -1, gl := "", hl := "", Location := "", Page := 1 } =
      some "num must be between 1 and 100" ∧
    Validate { Q := "test", Num := 101, gl := "", hl := "", Location := "", Page := 1 } =
      some "num must be between 1 and 100" := by
  refine ⟨?_, ?_, ?_, ?_, ?_⟩ <;> decide

/-- C2: the claim states that `Validate` fails with a message mentioning
"page" whenever `Page` is 0 or negative.  The code enforces `Page < 0`
(message "page must be non-negative"), so `Page = 0` is accepted —
contradicting the repository's own test `TestSearchRequest_Validate`
(case "page zero") and CHANGELOG 1.1.0.  This theorem evaluates the code at
the failing input `Page = 0` (accepted) and at `Page = 1` and `-1`. -/
theorem claim2_validate_page :
    Validate { Q := "test", Num := 10, gl := "", hl := "", Location := "", Page := 0 } = none ∧
    Validate { Q := "test", Num := 10, gl := "", hl := "", Location := "", Page := 1 } = none ∧
    Validate { Q := "test", Num := 10, gl := "", hl := "", Location := "", Page := -1 } =
      some "page must be non-negative" := by
  refine ⟨?_, ?_, ?_⟩ <;> decide

/-- C3: after any of the five vertical operations returns — whatever the
transport, security check, or decoder did — the caller's original request
cell holds exactly the value it held before the call. -/
theorem claim3_no_mutation :
    ∀ (α : Type) (c : Client) (ctx : Context) (secheck : List Nat → Option String)
      (decode : List Nat → Except String α) (req : SearchRequest),
      (Client.Search c ctx secheck decode req).2.1 = req ∧
      (Client.Images c ctx secheck decode req).2.1 = req ∧
      (Client.News c ctx secheck decode req).2.1 = req ∧
      (Client.Places c ctx secheck decode req).2.1 = req ∧
      (Client.Scholar c ctx secheck decode req).2.1 = req := by
  intro α c ctx secheck decode req
  exact ⟨clientCall_req_unchanged c ctx "/search" secheck decode req,
    clientCall_req_unchanged c ctx "/images" secheck decode req,
    clientCall_req_unchanged c ctx "/news" secheck decode req,
    clientCall_req_unchanged c ctx "/places" secheck decode req,
    clientCall_req_unchanged c ctx "/scholar" secheck decode req⟩

/-- C4: an empty query always fails validation after default-filling with a
message mentioning "query", and on any validation failure each of the five
vertical operations returns the validation error with an empty dispatch
trace — the transport is never invoked. -/
theorem claim4_invalid_no_dispatch :
    ∀ (α : Type) (c : Client) (ctx : Context) (secheck : List Nat → Option String)
      (decode : List Nat → Except String α) (req : SearchRequest),
      (req.Q = "" → Validate (SetDefaults req) = some "query (q) is required") ∧
      ∀ e : String, Validate (SetDefaults req) = some e →
        Client.Search c ctx secheck decode req =
          (Except.error (SerperError.validation e), req, []) ∧
        Client.Images c ctx secheck decode req =
          (Except.error (SerperError.validation e), req, []) ∧
        Client.News c ctx secheck decode req =
          (Except.error (SerperError.validation e), req, []) ∧
        Client.Places c ctx secheck decode req =
          (Except.error (SerperError.validation e), req, []) ∧
        Client.Scholar c ctx secheck decode req =
          (Except.error (SerperError.validation e), req, []) := by
  intro α c ctx secheck decode req
  constructor
  · intro hQ
    unfold Validate
    simp [setDefaults_Q, hQ]
  · intro e he
    exact ⟨clientCall_invalid c ctx "/search" secheck decode he,
      clientCall_invalid c ctx "/images" secheck decode he,
      clientCall_invalid c ctx "/news" secheck decode he,
      clientCall_invalid c ctx "/places" secheck decode he,
      clientCall_invalid c ctx "/scholar" secheck decode he⟩

/-- Witness for C4: the empty-query request from the repository's test
`TestSearch_ValidationError` yields the validation error with no dispatch. -/
theorem claim4_witness :
    Client.Search testClient none noCheck okDecode
        { Q := "", Num := 0, gl := "", hl := "", Location := "", Page := 0 } =
      (Except.error (SerperError.validation "query (q) is required"),
        { Q := "", Num := 0, gl := "", hl := "", Location := "", Page := 0 }, []) :=
  ((claim4_invalid_no_dispatch Unit testClient none noCheck okDecode
      { Q := "", Num := 0, gl := "", hl := "", Location := "", Page := 0 }).2
    "query (q) is required" (by decide)).1

/-- C5: on a request whose count, country, language and page are all unset
(Go zero values), default-filling produces count 10, country "us", language
"en", page 1, leaving `Q` and `Location` untouched; and on a request whose
count and page are non-zero and whose country and language are non-empty,
default-filling changes nothing at all. -/
theorem claim5_defaults :
    ∀ req : SearchRequest,
      (req.Num = 0 → req.gl = "" → req.hl = "" → req.Page = 0 →
        SetDefaults req = { req with Num := 10, gl := "us", hl := "en", Page := 1 }) ∧
      (req.Num ≠ 0 → req.gl ≠ "" → req.hl ≠ "" → req.Page ≠ 0 →
        SetDefaults req = req) := by
  intro req
  constructor
  · intro h1 h2 h3 h4
    rw [setDefaults_eq]
    simp [h1, h2, h3, h4]
  · intro h1 h2 h3 h4
    rw [setDefaults_eq]
    simp [h1, h2, h3, h4]

/-- Witness for C5: the two concrete requests from the repository's tests
`TestSearchRequest_SetDefaults` and `TestSetDefaults_PreservesExplicitValues`. -/
theorem claim5_witness :
    SetDefaults { Q := "golang", Num := 0, gl := "", hl := "", Location := "nyc", Page := 0 } =
      { Q := "golang", Num := 10, gl := "us", hl := "en", Location := "nyc", Page := 1 } ∧
    SetDefaults { Q := "golang", Num := 50, gl := "de", hl := "fr", Location := "", Page := 3 } =
      { Q := "golang", Num := 50, gl := "de", hl := "fr", Location := "", Page := 3 } :=
  ⟨(claim5_defaults { Q := "golang", Num := 0, gl := "", hl := "", Location := "nyc", Page := 0 }).1
      rfl rfl rfl rfl,
   (claim5_defaults { Q := "golang", Num := 50, gl := "de", hl := "fr", Location := "", Page := 3 }).2
      (by decide) (by decide) (by decide) (by decide)⟩

/-- C6: default-filling is idempotent — a second application changes
nothing, because after the first application no field holds a zero value
that the filling touches. -/
theorem claim6_setDefaults_idempotent :
    ∀ r : SearchRequest, SetDefaults (SetDefaults r) = SetDefaults r := by
  intro r
  rw [setDefaults_eq r, setDefaults_eq]
  by_cases h1 : r.Num = 0 <;> by_cases h2 : r.gl = "" <;>
    by_cases h3 : r.hl = "" <;> by_cases h4 : r.Page = 0 <;>
    simp [h1, h2, h3, h4]

/-- C7: the status-code switch is a total function on failing codes mapping
400 to validation, 401 to unauthorized, 404 to not-found, 429 to
rate-limited, 502 and 503 to dependency (the spec's upstream-unavailable),
and every other code ≥ 400 to internal; the classified error's kind is the
switch's kind and its message carries the truncated response body. -/
theorem claim7_status_mapping :
    statusKind 400 = ErrorKind.validation ∧
    statusKind 401 = ErrorKind.unauthorized ∧
    statusKind 404 = ErrorKind.notFound ∧
    statusKind 429 = ErrorKind.rateLimited ∧
    statusKind 502 = ErrorKind.dependency ∧
    statusKind 503 = ErrorKind.dependency ∧
    (∀ code : Int, 400 ≤ code → code ≠ 400 → code ≠ 401 → code ≠ 404 →
      code ≠ 429 → code ≠ 502 → code ≠ 503 → statusKind code = ErrorKind.internal) ∧
    (∀ (code : Int) (body : List Nat),
      (classifyHTTPError code body).kind = statusKind code ∧
      (classifyHTTPError code body).statusCode = code ∧
      (classifyHTTPError code body).message =
        strBytes ("serper: HTTP " ++ toString code ++ ": ") ++ truncateErrorBody body) := by
  refine ⟨by decide, by decide, by decide, by decide, by decide, by decide, ?_, ?_⟩
  · intro code h h400 h401 h404 h429 h502 h503
    unfold statusKind
    simp [h400, h401, h404, h429, h502, h503]
  · intro code body
    exact ⟨rfl, rfl, rfl⟩

/-- Witness for C7: the switch's default arm at the concrete code 500
(neither of the six named codes), as exercised by the repository's test
`TestSearch_HTTP500`. -/
theorem claim7_witness : statusKind 500 = ErrorKind.internal :=
  claim7_status_mapping.2.2.2.2.2.2.1 500 (by decide) (by decide) (by decide)
    (by decide) (by decide) (by decide) (by decide)

/-- C8: a failing-status body longer than 1024 bytes is kept in the error
message as exactly its first 1024 bytes followed by the truncation marker
(total `1024 + 14` bytes of body text in the message); a body of at most
1024 bytes is kept whole with no marker. -/
theorem claim8_truncation :
    ∀ body : List Nat,
      (maxErrorBodyBytes < body.length →
        truncateErrorBody body = body.take maxErrorBodyBytes ++ truncationMarker ∧
        (truncateErrorBody body).length = maxErrorBodyBytes + truncationMarker.length) ∧
      (body.length ≤ maxErrorBodyBytes → truncateErrorBody body = body) ∧
      (∀ code : Int, (classifyHTTPError code body).message =
        strBytes ("serper: HTTP " ++ toString code ++ ": ") ++ truncateErrorBody body) ∧
      maxErrorBodyBytes = 1024 ∧ truncationMarker.length = 14 := by
  intro body
  refine ⟨?_, ?_, fun code => rfl, by decide, by decide⟩
  · intro h
    unfold truncateErrorBody
    rw [if_pos h]
    refine ⟨rfl, ?_⟩
    simp [List.length_take]
    omega
  · intro h
    unfold truncateErrorBody
    rw [if_neg (by omega)]

/-- Witness for C8: the 2000-byte body of the repository's test
`TestSearch_ErrorBodyTruncation` is truncated to 1024 bytes plus the marker,
1038 bytes in total. -/
theorem claim8_witness :
    truncateErrorBody (List.replicate 2000 120) =
      (List.replicate 2000 120).take maxErrorBodyBytes ++ truncationMarker ∧
    (truncateErrorBody (List.replicate 2000 120)).length = 1038 := by
  have h1 := (claim8_truncation (List.replicate 2000 120)).1
    (by rw [List.length_replicate]; unfold maxErrorBodyBytes; omega)
  have h2 := (claim8_truncation (List.replicate 2000 120)).2.2.2
  exact ⟨h1.1, by rw [h1.2, h2.1, h2.2]⟩

/-- C9: construction fails on an empty API key before any option is
applied; with a non-empty key and any option list ending in a base-URL
override, the final (last-supplied) URL is the one stored and validated —
construction succeeds with that URL exactly when it is well-formed and
fails otherwise; with no options the base URL is the fixed default. -/
theorem claim9_construction :
    (∀ opts : List ClientOption,
      New "" opts = Except.error "serper: API key must not be empty") ∧
    (∀ (key : String) (pre : List ClientOption) (u : String), key ≠ "" →
      (isAbsoluteURL u = true →
        ∃ c : Client, New key (pre ++ [WithBaseURL u]) = Except.ok c ∧ c.baseURL = u) ∧
      (isAbsoluteURL u = false →
        New key (pre ++ [WithBaseURL u]) =
          Except.error ("serper: invalid base URL " ++ u))) ∧
    (∀ key : String, key ≠ "" →
      New key [] =
        Except.ok { apiKey := key, baseURL := defaultBaseURL, doer := defaultDoer }) := by
  refine ⟨?_, ?_, ?_⟩
  · intro opts
    unfold New
    simp
  · intro key pre u hk
    have hfold : ∀ c0 : Client,
        (pre ++ [WithBaseURL u]).foldl (fun c o => o c) c0 =
          { pre.foldl (fun c o => o c) c0 with baseURL := u } := by
      intro c0
      simp [List.foldl_append, WithBaseURL]
    constructor
    · intro hu
      refine ⟨{ pre.foldl (fun c o => o c)
          { apiKey := key, baseURL := defaultBaseURL, doer := defaultDoer } with
            baseURL := u }, ?_, rfl⟩
      unfold New
      simp [hk, hfold, hu]
    · intro hu
      unfold New
      simp [hk, hfold, hu]
  · intro key hk
    unfold New
    simp [hk, show isAbsoluteURL defaultBaseURL = true by decide]

/-- Witness for C9: the concrete constructions of the repository's tests
`TestNew_EmptyAPIKey`, `TestNew_LastOptionWins`, `TestNew_InvalidBaseURL`
and `TestNew_Defaults`. -/
theorem claim9_witness :
    New "" [] = Except.error "serper: API key must not be empty" ∧
    (∃ c : Client,
      New "key" [WithBaseURL "https://first.com", WithBaseURL "https://second.com"] =
        Except.ok c ∧ c.baseURL = "https://second.com") ∧
    New "key" [WithBaseURL "://bad"] =
      Except.error ("serper: invalid base URL " ++ "://bad") ∧
    New "test-key" [] =
      Except.ok { apiKey := "test-key", baseURL := defaultBaseURL, doer := defaultDoer } := by
  refine ⟨claim9_construction.1 [], ?_, ?_, claim9_construction.2.2 "test-key" (by decide)⟩
  · exact (claim9_construction.2.1 "key" [WithBaseURL "https://first.com"]
      "https://second.com" (by decide)).1 (by decide)
  · exact (claim9_construction.2.1 "key" [] "://bad" (by decide)).2 (by decide)

/-- C10 counterexample: the claim says that only strictly negative count or
page values cause a vertical operation to return a validation error without
dispatching; but `Num = 101` with `Page = 1` (both non-negative) also does. -/
theorem claim10_counterexample :
    Client.Search testClient none noCheck okDecode
        { Q := "q", Num := 101, gl := "", hl := "", Location := "", Page := 1 } =
      (Except.error (SerperError.validation "num must be between 1 and 100"),
        { Q := "q", Num := 101, gl := "", hl := "", Location := "", Page := 1 }, []) ∧
    (0 : Int) ≤ 101 ∧ (0 : Int) ≤ 1 := by
  refine ⟨?_, by decide, by decide⟩
  rw [search_eq_clientCall]
  exact clientCall_invalid testClient none "/search" noCheck okDecode (by decide)

/-- C10 (amended): through the client pipeline (here stated for the shared
call shape `clientCall`, to which each of the five vertical operations is
definitionally equal), for a request with non-empty query: count 0 and page
0 do not fail validation — defaults turn them into 10 and 1 and the call
dispatches; and a validation error with no dispatch occurs exactly when the
caller supplied a strictly negative count, a count above 100, or a strictly
negative page. -/
theorem claim10_pipeline :
    ∀ (α : Type) (c : Client) (ctx : Context) (endpoint : String)
      (secheck : List Nat → Option String) (decode : List Nat → Except String α)
      (req : SearchRequest), req.Q ≠ "" →
      (Client.Search c ctx secheck decode req =
          clientCall c ctx "/search" secheck decode req ∧
        Client.Images c ctx secheck decode req =
          clientCall c ctx "/images" secheck decode req ∧
        Client.News c ctx secheck decode req =
          clientCall c ctx "/news" secheck decode req ∧
        Client.Places c ctx secheck decode req =
          clientCall c ctx "/places" secheck decode req ∧
        Client.Scholar c ctx secheck decode req =
          clientCall c ctx "/scholar" secheck decode req) ∧
      ((∃ e : String, clientCall c ctx endpoint secheck decode req =
          (Except.error (SerperError.validation e), req, [])) ↔
        (req.Num < 0 ∨ 100 < req.Num ∨ req.Page < 0)) ∧
      (req.Num = 0 → req.Page = 0 →
        (SetDefaults req).Num = 10 ∧ (SetDefaults req).Page = 1 ∧
        (clientCall c ctx endpoint secheck decode req).2.2 =
          [buildDispatch c ctx endpoint (SetDefaults req)]) := by
  intro α c ctx endpoint secheck decode req hQ
  refine ⟨⟨rfl, rfl, rfl, rfl, rfl⟩, ?_, ?_⟩
  · constructor
    · rintro ⟨e, he⟩
      by_contra hcon
      have hnone : Validate (SetDefaults req) = none :=
        (validate_setDefaults_none_iff req hQ).2 hcon
      have htr := clientCall_valid c ctx endpoint secheck decode hnone
      rw [he] at htr
      simp at htr
    · intro h
      have hne : Validate (SetDefaults req) ≠ none := by
        intro hnone
        exact (validate_setDefaults_none_iff req hQ).1 hnone h
      obtain ⟨e, he⟩ := Option.ne_none_iff_exists.mp hne
      exact ⟨e, clientCall_invalid c ctx endpoint secheck decode he.symm⟩
  · intro h0 hp0
    have hNum : (SetDefaults req).Num = 10 := by
      rw [setDefaults_eq]
      simp [h0]
    have hPage : (SetDefaults req).Page = 1 := by
      rw [setDefaults_eq]
      simp [hp0]
    have hnone : Validate (SetDefaults req) = none := by
      rw [validate_setDefaults_none_iff req hQ]
      omega
    exact ⟨hNum, hPage, clientCall_valid c ctx endpoint secheck decode hnone⟩

/-- Witness for C10: the concrete request with count 0 and page 0 and a
non-empty query dispatches exactly once through `Search`'s call shape, with
the defaults 10 and 1 in the prepared request. -/
theorem claim10_witness :
    (SetDefaults { Q := "test", Num := 0, gl := "", hl := "", Location := "", Page := 0 }).Num = 10 ∧
    (SetDefaults { Q := "test", Num := 0, gl := "", hl := "", Location := "", Page := 0 }).Page = 1 ∧
    (clientCall testClient none "/search" noCheck okDecode
        { Q := "test", Num := 0, gl := "", hl := "", Location := "", Page := 0 }).2.2 =
      [buildDispatch testClient none "/search"
        (SetDefaults { Q := "test", Num := 0, gl := "", hl := "", Location := "", Page := 0 })] :=
  (claim10_pipeline Unit testClient none "/search" noCheck okDecode
      { Q := "test", Num := 0, gl := "", hl := "", Location := "", Page := 0 }
      (by decide)).2.2 rfl rfl

end Serper
